import Mathlib

/-
Verification of the SherpaAI backend (Python, src/Backend/src).

Shallow embedding of the asynchronous job dispatch and callback subsystem:
  - src/services/qstash_client.py : normalize_base_url, build_callback_url,
    is_loopback_or_private, verify_qstash_request
  - src/services/supabase_logger.py : fetch_interactions (query-parameter clamp)
  - src/services/tasks.py : process_transcript / process_icebreaker retry loops
  - src/api/controllers/transcript_controller.py and icebreaker_controller.py :
    enqueue and callback controllers

Python strings are embedded as List Char so that every definition evaluates
inside the kernel.  Network calls (chat completion, Supabase insert) are
modelled as oracles giving the outcome of the k-th call; time.sleep / asyncio
sleep is recorded as a trace event carrying the rational delay.
-/

/-! ## Character/string helpers mirroring the Python string primitives -/

/-- ASCII lower-casing of one character (models str.lower for the ASCII
hosts and flags this codebase compares against). -/
def asciiLower (c : Char) : Char :=
  if 'A' ≤ c ∧ c ≤ 'Z' then Char.ofNat (c.toNat + 32) else c

/-- Whitespace characters stripped by Python str.strip (ASCII fragment). -/
def isPySpace (c : Char) : Bool :=
  c == ' ' || c == '\t' || c == '\n' || c == '\r' || c == '\x0b' || c == '\x0c'

/-- Python str.strip(): drop whitespace from both ends. -/
def stripWS (l : List Char) : List Char :=
  ((l.dropWhile isPySpace).reverse.dropWhile isPySpace).reverse

/-- Python str.rstrip("/"): drop every trailing slash. -/
def rstripSlash (l : List Char) : List Char :=
  (l.reverse.dropWhile (fun c => c == '/')).reverse

/-- Strip one layer of matching surrounding quote characters, as in
normalize_base_url: if len(v) >= 2 and v[0] in ('"', "'") and v[-1] == v[0]. -/
def unquote (l : List Char) : List Char :=
  if decide (2 ≤ l.length) && (l.headD ' ' == '"' || l.headD ' ' == '\'') &&
      (l.getLastD ' ' == l.headD ' ')
  then (l.drop 1).dropLast else l

/-- Python str.startswith on character lists. -/
def begWith : List Char → List Char → Bool
  | [], _ => true
  | _ :: _, [] => false
  | a :: p, b :: q => a == b && begWith p q

/-- Split a list at the first occurrence of a (nonempty) separator,
returning the parts before and after it; none if the separator is absent. -/
def breakOn (sep : List Char) : List Char → Option (List Char × List Char)
  | [] => none
  | c :: rest =>
    if begWith sep (c :: rest) then some ([], (c :: rest).drop sep.length)
    else
      match breakOn sep rest with
      | some (pre, post) => some (c :: pre, post)
      | none => none

/-- Part of a netloc after the last '@' (userinfo separator), as in
urllib's hostname extraction. -/
def afterLastAt (l : List Char) : List Char :=
  (l.reverse.takeWhile (fun c => !(c == '@'))).reverse

/-! ## qstash_client.py : URL normalization and classification -/

/-- Value as processed by normalize_base_url before the scheme check:
v = value.strip().rstrip("/"), then one layer of matching quotes stripped. -/
def processedValue (value : List Char) : List Char :=
  unquote (rstripSlash (stripWS value))

/-- Test for an explicit scheme: v.startswith("http://") or v.startswith("https://"). -/
def hasScheme (v : List Char) : Bool :=
  begWith "http://".data v || begWith "https://".data v

/-- Test from normalize_base_url for local-looking hosts:
lower.startswith("localhost") or lower.startswith("127.0.0.1") or
lower.startswith("0.0.0.0"), where lower = v.lower(). -/
def isLocalHostLike (v : List Char) : Bool :=
  let lower := v.map asciiLower
  begWith "localhost".data lower || begWith "127.0.0.1".data lower ||
    begWith "0.0.0.0".data lower

/-- Embedding of qstash_client.normalize_base_url.  none models the
HTTPException(500) raised when the input is empty or blank. -/
def normalize_base_url (value : List Char) : Option (List Char) :=
  if stripWS value = [] then none
  else if hasScheme (processedValue value) then some (processedValue value)
  else if isLocalHostLike (processedValue value) then
    some ("http://".data ++ processedValue value)
  else some ("https://".data ++ processedValue value)

/-- Embedding of qstash_client.build_callback_url: leading slash ensured on
the path, concatenated with the normalized base URL. -/
def build_callback_url (backendUrl path : List Char) : Option (List Char) :=
  match normalize_base_url backendUrl with
  | none => none
  | some base => some (base ++ (if path.headD ' ' == '/' then path else '/' :: path))

/-- Host extraction as performed by urlparse(url).hostname (lower-cased, port
and userinfo removed) for URLs carrying an explicit scheme://netloc; a URL
without "://" yields no netloc, hence an empty host.  Bracketed IPv6
authority hosts are outside the modelled fragment (no claim involves them). -/
def hostOf (url : List Char) : List Char :=
  match breakOn "://".data url with
  | none => []
  | some (_, rest) =>
    let netloc := rest.takeWhile (fun c => !(c == '/' || c == '?' || c == '#'))
    let hostinfo := afterLastAt netloc
    let host := hostinfo.takeWhile (fun c => !(c == ':'))
    host.map asciiLower

/-- Decimal digit test. -/
def isDigitChar (c : Char) : Bool := '0' ≤ c && c ≤ '9'

/-- Numeric value of a digit string. -/
def digitsToNat (l : List Char) : Nat :=
  l.foldl (fun n c => n * 10 + (c.toNat - '0'.toNat)) 0

/-- One dotted-quad octet as accepted by Python ipaddress: 1-3 digits, value
at most 255, no leading zero. -/
def parseOctet (l : List Char) : Option Nat :=
  if !l.isEmpty && decide (l.length ≤ 3) && l.all isDigitChar &&
      (!(l.headD '0' == '0') || decide (l.length = 1)) then
    let n := digitsToNat l
    if n ≤ 255 then some n else none
  else none

/-- Split on '.', keeping empty parts (Python str.split "."). -/
def splitDotAux : List Char → List Char → List (List Char)
  | [], acc => [acc.reverse]
  | '.' :: rest, acc => acc.reverse :: splitDotAux rest []
  | c :: rest, acc => splitDotAux rest (c :: acc)

/-- Embedding of ipaddress.ip_address for the IPv4 dotted-quad fragment this
service classifies (IPv6 literals never reach it through hostOf). -/
def parseIPv4 (l : List Char) : Option (Nat × Nat × Nat × Nat) :=
  match splitDotAux l [] with
  | [a, b, c, d] =>
    match parseOctet a, parseOctet b, parseOctet c, parseOctet d with
    | some x, some y, some z, some w => some (x, y, z, w)
    | _, _, _, _ => none
  | _ => none

/-- IPv4Address.is_loopback : 127.0.0.0/8. -/
def ipv4IsLoopback (ip : Nat × Nat × Nat × Nat) : Bool :=
  ip.1 == 127

/-- IPv4Address.is_private : membership in the private-network list of the
Python ipaddress module. -/
def ipv4IsPrivate (ip : Nat × Nat × Nat × Nat) : Bool :=
  match ip with
  | (a, b, c, d) =>
    a == 0 || a == 10 || a == 127 || (a == 169 && b == 254) ||
    (a == 172 && decide (16 ≤ b ∧ b ≤ 31)) ||
    (a == 192 && b == 0 && c == 0 && decide (d ≤ 7)) ||
    (a == 192 && b == 0 && c == 0 && (d == 170 || d == 171)) ||
    (a == 192 && b == 0 && c == 2) || (a == 192 && b == 168) ||
    (a == 198 && (b == 18 || b == 19)) || (a == 198 && b == 51 && c == 100) ||
    (a == 203 && b == 0 && c == 113) || decide (240 ≤ a)

/-- Embedding of qstash_client.is_loopback_or_private: empty host (parse
failure or no netloc) is treated as local; "localhost"/"ip6-localhost" are
local; an IP host is classified by loopback-or-private; any other hostname
is public. -/
def is_loopback_or_private (url : List Char) : Bool :=
  let host := hostOf url
  if host.isEmpty then true
  else if host == "localhost".data || host == "ip6-localhost".data then true
  else
    match parseIPv4 host with
    | some ip => ipv4IsLoopback ip || ipv4IsPrivate ip
    | none => false

/-- Hostname alphabet of a plain (non-IP-literal) lower-cased host. -/
def isHostnameChar (c : Char) : Bool :=
  ('a' ≤ c && c ≤ 'z') || ('0' ≤ c && c ≤ '9') || c == '.' || c == '-'

/-! ## supabase_logger.py : fetch_interactions pagination clamp -/

/-- Pagination parameters forwarded to the Supabase REST API (the Python code
stringifies them into the query string; the numeric values are modelled). -/
structure FetchParams where
  limit : Int
  offset : Int
deriving DecidableEq

/-- Embedding of supabase_logger.fetch_interactions restricted to the
parameter computation: limit is forwarded as max(0, min(1000, limit)) and
offset as max(0, offset); when Supabase is not configured the function
returns an empty list without issuing any request (modelled as none). -/
def fetch_interactions (configured : Bool) (limit offset : Int) : Option FetchParams :=
  if !configured then none
  else some ⟨max 0 (min 1000 limit), max 0 offset⟩

/-! ## qstash_client.py : verify_qstash_request -/

/-- Outcome of verify_qstash_request.  authError models the
HTTPException(401) the function raises itself; sigException models a
signature-verification exception from the SDK Receiver escaping the
function (the controllers turn it into a 500). -/
inductive VerifyResult
  | ok
  | authError (detail : String)
  | sigException (detail : String)
deriving DecidableEq

/-- Environment and SDK state consulted by verify_qstash_request.
qstashVerify is os.getenv("QSTASH_VERIFY", "true"); receiverAvailable models
the SDK Receiver class being importable; signingKey collapses
QSTASH_CURRENT_SIGNING_KEY or QSTASH_SIGNING_KEY (none when unset or empty,
matching Python falsiness); receiverConstructs models the Receiver
constructor accepting one of the two keyword forms tried; signatureValid is
the outcome of receiver.verify on the presented signature. -/
structure VerifyEnv where
  qstashVerify : String
  receiverAvailable : Bool
  signingKey : Option String
  receiverConstructs : Bool
  signatureValid : Bool

/-- Lower-casing of a string, ASCII fragment of str.lower. -/
def lowerStr (s : String) : String := String.mk (s.data.map asciiLower)

/-- Explicit opt-out check: str(os.getenv("QSTASH_VERIFY", "true")).lower()
in ("0", "false", "no"). -/
def verifyDisabled (env : VerifyEnv) : Bool :=
  lowerStr env.qstashVerify == "0" || lowerStr env.qstashVerify == "false" ||
    lowerStr env.qstashVerify == "no"

/-- Embedding of qstash_client.verify_qstash_request.  The signature
argument is the case-insensitive Upstash-Signature header lookup (Starlette
headers are case-insensitive; the code also tries both spellings); some ""
models a present-but-empty header, which Python falsiness also rejects. -/
def verify_qstash_request (env : VerifyEnv) (signature : Option String) : VerifyResult :=
  if verifyDisabled env then .ok
  else if !env.receiverAvailable then .ok
  else
    match env.signingKey with
    | none => .ok
    | some _ =>
      if !env.receiverConstructs then .ok
      else
        match signature with
        | none => .authError "Missing Upstash-Signature header"
        | some s =>
          if s.isEmpty then .authError "Missing Upstash-Signature header"
          else if env.signatureValid then .ok
          else .sigException "signature verification failed"

/-! ## Callback and enqueue controllers -/

/-- Parsed JSON callback body, modelled as an association list of
string-valued fields (the fields the controllers inspect are strings). -/
abbrev JsonBody := List (String × String)

/-- Python dict.get(key, default) on the modelled body. -/
def bodyGet (b : JsonBody) (k dflt : String) : String :=
  match b.find? (fun p => p.1 == k) with
  | some p => p.2
  | none => dflt

/-- Observable outcome of one callback-controller invocation: the HTTP
status of the response, the payload handed to the detached background task
(none when nothing is scheduled), the job_id field of the response, and its
status field. -/
structure CallbackResponse where
  httpStatus : Nat
  scheduled : Option JsonBody
  job_id : Option String
  status : Option String
deriving DecidableEq

/-- Embedding of transcript_controller.process_transcript_callback_controller:
verify the request (401 stops processing), parse the body (parse failure
responds 400 and schedules nothing), extract job_id = body.get("name",
"unknown"), schedule background processing of the body and respond
immediately with status "accepted". -/
def process_transcript_callback_controller (env : VerifyEnv) (signature : Option String)
    (parsedBody : Except String JsonBody) : CallbackResponse :=
  match verify_qstash_request env signature with
  | .authError _ => ⟨401, none, none, none⟩
  | .sigException _ => ⟨500, none, none, none⟩
  | .ok =>
    match parsedBody with
    | .error _ => ⟨400, none, none, none⟩
    | .ok body =>
      let jid := bodyGet body "name" "unknown"
      ⟨200, some body, some jid, some "accepted"⟩

/-- Embedding of icebreaker_controller.process_icebreaker_callback_controller:
verify the request (401 stops processing), parse the body substituting an
empty object on parse failure, schedule background processing and respond
with status "processing". -/
def process_icebreaker_callback_controller (env : VerifyEnv) (signature : Option String)
    (parsedBody : Except String JsonBody) : CallbackResponse :=
  match verify_qstash_request env signature with
  | .authError _ => ⟨401, none, none, none⟩
  | .sigException _ => ⟨500, none, none, none⟩
  | .ok =>
    let body := match parsedBody with | .error _ => [] | .ok b => b
    ⟨200, some body, none, some "processing"⟩

/-- Dispatch acknowledgment returned by the enqueue controllers, together
with the side effects observable in the code: whether a detached local
background task was scheduled and whether the job was published to QStash. -/
structure EnqueueResponse where
  job_id : Option (List Char)
  status : String
  mode : String
  localScheduled : Bool
  published : Bool
deriving DecidableEq

/-- Embedding of the shared dispatch logic of
transcript_controller.enqueue_transcript_job_controller and
icebreaker_controller.enqueue_icebreaker_job_controller: build the callback
URL (none models the HTTPException when BACKEND_URL is unset), then branch
on is_loopback_or_private — local mode schedules a detached background task
and answers with a "local-" + hex job id; otherwise the job is published
and the response carries the publish response's messageId. -/
def enqueue_job_controller (backendUrl path freshHex : List Char)
    (publishMessageId : Option (List Char)) : Option EnqueueResponse :=
  match build_callback_url backendUrl path with
  | none => none
  | some callbackEndpoint =>
    if is_loopback_or_private callbackEndpoint then
      some ⟨some ("local-".data ++ freshHex), "queued", "local", true, false⟩
    else
      some ⟨publishMessageId, "queued", "qstash", false, true⟩

/-! ## tasks.py : process_transcript / process_icebreaker retry skeleton -/

/-- Trace events of one job execution: the k-th completion call with its
outcome, the k-th Supabase log call with its outcome, and a sleep with its
delay in time units. -/
inductive Ev
  | comp (k : Nat) (ok : Bool)
  | log (k : Nat) (ok : Bool)
  | sleep (d : ℚ)
deriving DecidableEq

/-- Outcomes of the external calls: comp k is the result of the k-th chat
completion call (content on success, exception text on failure); log k is
the result of the k-th log_interaction call. -/
structure Oracles where
  comp : Nat → Except String String
  log : Nat → Except String Unit

/-- Embedding of the inner logging loop of tasks.py (for log_attempt in
range(3)): try log_interaction, break on success; on failure sleep
log_delay (0.5 doubling) while log_attempt < 2, and on the final attempt
raise HTTPException("Supabase logging failed after 3 attempts").  The
argument list carries the remaining values of log_attempt; i is the global
log-call counter; the unreachable loop fall-through maps to the
"Failed to log interaction" raise after the loop. -/
def logLoop (o : Oracles) : List Nat → Nat → ℚ → Except String Unit × List Ev × Nat
  | [], i, _ => (.error "Failed to log interaction", [], i)
  | a :: rest, i, logDelay =>
    match o.log i with
    | .ok _ => (.ok (), [.log i true], i + 1)
    | .error e =>
      if a < 2 then
        match logLoop o rest (i + 1) (logDelay * 2) with
        | (r, evs, j) => (r, .log i false :: .sleep logDelay :: evs, j)
      else
        (.error ("Supabase logging failed after 3 attempts: " ++ e), [.log i false], i + 1)

/-- Embedding of the outer retry loop of tasks.py (for attempt in range(3)):
each attempt performs the completion call and, on success, the full logging
loop; any exception (completion failure or logging exhaustion) is caught,
re-raised when attempt == 2, and otherwise followed by a sleep with the
doubling delay before the next attempt.  The argument list carries the
remaining values of attempt; ci and li are the global call counters; the
unreachable loop fall-through maps to the fallback raise after the loop. -/
def mainLoop (o : Oracles) : List Nat → Nat → Nat → ℚ → Except String String × List Ev
  | [], _, _, _ => (.error "Unknown error in process_transcript", [])
  | a :: rest, ci, li, delay =>
    match o.comp ci with
    | .ok content =>
      match logLoop o [0, 1, 2] li (1 / 2) with
      | (Except.ok _, levs, _) => (.ok content, .comp ci true :: levs)
      | (Except.error e, levs, li2) =>
        if a == 2 then (.error e, .comp ci true :: levs)
        else
          match mainLoop o rest (ci + 1) li2 (delay * 2) with
          | (r, evs) => (r, (.comp ci true :: levs) ++ .sleep delay :: evs)
    | .error e =>
      if a == 2 then (.error e, [.comp ci false])
      else
        match mainLoop o rest (ci + 1) li (delay * 2) with
        | (r, evs) => (r, .comp ci false :: .sleep delay :: evs)

/-- Embedding of tasks.process_transcript (lines 77-155): the retry-and-log
skeleton run with attempts 0, 1, 2 and initial delay 1. -/
def process_transcript (o : Oracles) : Except String String × List Ev :=
  mainLoop o [0, 1, 2] 0 0 1

/-- Embedding of tasks.process_icebreaker (lines 201-273): the retry-and-log
skeleton is identical to process_transcript (prompt construction and output
clean-up differ but lie outside the loop structure). -/
def process_icebreaker (o : Oracles) : Except String String × List Ev :=
  mainLoop o [0, 1, 2] 0 0 1

/-- Completion events in a trace. -/
def isCompEv : Ev → Bool
  | .comp _ _ => true
  | _ => false

/-- Log events in a trace. -/
def isLogEv : Ev → Bool
  | .log _ _ => true
  | _ => false

/-- Number of completion calls recorded in a trace. -/
def compCount (t : List Ev) : Nat := t.countP isCompEv

/-- Number of log calls recorded in a trace. -/
def logCount (t : List Ev) : Nat := t.countP isLogEv

/-- Total time slept in a trace. -/
def sleepTotal (t : List Ev) : ℚ :=
  (t.filterMap (fun e => match e with | .sleep d => some d | _ => none)).sum

/-- Sleep delays of a trace, in order. -/
def sleepsOf (t : List Ev) : List ℚ :=
  t.filterMap (fun e => match e with | .sleep d => some d | _ => none)

/-- Check that no log event occurs before the first successful completion
event, i.e. every log call is preceded by a successful completion call. -/
def noLogBeforeCompSuccess : List Ev → Bool
  | [] => true
  | Ev.comp _ true :: _ => true
  | Ev.log _ _ :: _ => false
  | Ev.comp _ false :: t => noLogBeforeCompSuccess t
  | Ev.sleep _ :: t => noLogBeforeCompSuccess t

/-! ## Theorems -/

/-- C3: with verification explicitly disabled, or with no signing key or no
verification capability (SDK Receiver missing or not constructible)
configured, verify_qstash_request succeeds regardless of the headers; with
verification enabled, the capability present and a signing key configured,
an absent (case-insensitive) Upstash-Signature header always yields the
401 AuthError and both callback controllers schedule no job body. -/
theorem verify_callback_skip_and_missing_signature (env : VerifyEnv)
    (signature : Option String) (k : String) (parsed : Except String JsonBody) :
    ((verifyDisabled env = true ∨ env.receiverAvailable = false ∨
        env.signingKey = none ∨ env.receiverConstructs = false) →
      verify_qstash_request env signature = .ok) ∧
    (verifyDisabled env = false → env.receiverAvailable = true →
      env.signingKey = some k → env.receiverConstructs = true → signature = none →
      verify_qstash_request env signature = .authError "Missing Upstash-Signature header" ∧
      (process_transcript_callback_controller env signature parsed).httpStatus = 401 ∧
      (process_transcript_callback_controller env signature parsed).scheduled = none ∧
      (process_icebreaker_callback_controller env signature parsed).scheduled = none) := by
  constructor
  · rintro (h | h | h | h) <;> cases hk : env.signingKey <;>
      simp_all [verify_qstash_request]
  · intro hd hr hk hc hs
    simp [verify_qstash_request, process_transcript_callback_controller,
      process_icebreaker_callback_controller, hd, hr, hk, hc, hs]

/-- C3 (witness): a concrete disabled-verification environment accepts a
request carrying an arbitrary signature, and a concrete enabled environment
with a key rejects a signature-less request with 401. -/
theorem verify_callback_skip_witness :
    verify_qstash_request ⟨"false", true, some "k", true, true⟩ (some "sig") = VerifyResult.ok ∧
    (process_transcript_callback_controller ⟨"true", true, some "k", true, true⟩ none
      (Except.ok [])).httpStatus = 401 := by
  constructor
  · exact (verify_callback_skip_and_missing_signature ⟨"false", true, some "k", true, true⟩
      (some "sig") "k" (Except.ok [])).1 (Or.inl (by decide))
  · exact ((verify_callback_skip_and_missing_signature ⟨"true", true, some "k", true, true⟩
      none "k" (Except.ok [])).2 (by decide) rfl rfl rfl rfl).2.1

/-- C4: the dispatch acknowledgment is decided by is_loopback_or_private on
the built callback URL: when it holds, the response is mode "local",
status "queued" with a "local-"-prefixed job id and a detached background
task; otherwise the job is published and the response is mode "qstash"
with the publish response's messageId as job id. -/
theorem dispatch_mode_law (backendUrl path freshHex : List Char)
    (mid : Option (List Char)) (cb : List Char)
    (hb : build_callback_url backendUrl path = some cb) :
    (is_loopback_or_private cb = true →
      enqueue_job_controller backendUrl path freshHex mid =
        some ⟨some ("local-".data ++ freshHex), "queued", "local", true, false⟩) ∧
    (is_loopback_or_private cb = false →
      enqueue_job_controller backendUrl path freshHex mid =
        some ⟨mid, "queued", "qstash", false, true⟩) := by
  constructor <;> intro h <;> simp [enqueue_job_controller, hb, h]

/-- C4 (witness): a localhost backend URL dispatches in local mode and a
public backend URL dispatches through the queue. -/
theorem dispatch_mode_witness :
    enqueue_job_controller "http://localhost:8000".data "/api/v1/transcripts/callback".data
        "abc123".data (some "m1".data) =
      some ⟨some ("local-".data ++ "abc123".data), "queued", "local", true, false⟩ ∧
    enqueue_job_controller "https://api.example.com".data "/api/v1/icebreakers/callback".data
        "abc123".data (some "m1".data) =
      some ⟨some "m1".data, "queued", "qstash", false, true⟩ := by
  constructor
  · exact (dispatch_mode_law "http://localhost:8000".data "/api/v1/transcripts/callback".data
      "abc123".data (some "m1".data)
      "http://localhost:8000/api/v1/transcripts/callback".data (by decide)).1 (by decide)
  · exact (dispatch_mode_law "https://api.example.com".data "/api/v1/icebreakers/callback".data
      "abc123".data (some "m1".data)
      "https://api.example.com/api/v1/icebreakers/callback".data (by decide)).2 (by decide)

/-- C5 (counterexample): a verified transcript callback whose body carries a
job id field is handled with job_id "unknown": the body's job id "J123" is
not reused (the handler reads only the "name" field and no fresh id is
generated), refuting the claim as stated. -/
theorem callback_jobid_not_reused :
    (process_transcript_callback_controller ⟨"false", false, none, false, true⟩ none
      (Except.ok [("job_id", "J123")])).job_id = some "unknown" ∧
    ("unknown" : String) ≠ "J123" := by decide

/-- C5 (amended): for every verified transcript callback with a successfully
parsed body, the handler sets job_id to the body's "name" field when present
and to the constant "unknown" otherwise, schedules the body for background
processing and responds with status "accepted"; no Job Store exists in the
code. -/
theorem transcript_callback_jobid_amended (env : VerifyEnv) (signature : Option String)
    (body : JsonBody) (hv : verify_qstash_request env signature = .ok) :
    process_transcript_callback_controller env signature (Except.ok body) =
      ⟨200, some body, some (bodyGet body "name" "unknown"), some "accepted"⟩ := by
  simp [process_transcript_callback_controller, hv]

/-- C5 (witness): a concrete callback with a "name" field is scheduled with
that name as job_id. -/
theorem transcript_callback_jobid_witness :
    process_transcript_callback_controller ⟨"0", true, some "k", true, true⟩ none
        (Except.ok [("name", "Alice")]) =
      ⟨200, some [("name", "Alice")], some "Alice", some "accepted"⟩ :=
  (transcript_callback_jobid_amended ⟨"0", true, some "k", true, true⟩ none
    [("name", "Alice")] (by decide)).trans (by decide)

/-- C6: on a JSON parse failure of a verified callback body the transcript
handler (strict) responds 400 and schedules nothing, while the icebreaker
handler (lenient) substitutes the empty object and still schedules
processing. -/
theorem parse_failure_strict_vs_lenient (env : VerifyEnv) (signature : Option String)
    (e : String) (hv : verify_qstash_request env signature = .ok) :
    process_transcript_callback_controller env signature (Except.error e) =
      ⟨400, none, none, none⟩ ∧
    process_icebreaker_callback_controller env signature (Except.error e) =
      ⟨200, some [], none, some "processing"⟩ := by
  simp [process_transcript_callback_controller, process_icebreaker_callback_controller, hv]

/-- C6 (witness): concrete parse failure under a disabled-verification
environment. -/
theorem parse_failure_witness :
    process_transcript_callback_controller ⟨"false", true, some "k", true, true⟩ none
      (Except.error "bad json") = ⟨400, none, none, none⟩ ∧
    process_icebreaker_callback_controller ⟨"false", true, some "k", true, true⟩ none
      (Except.error "bad json") = ⟨200, some [], none, some "processing"⟩ :=
  parse_failure_strict_vs_lenient ⟨"false", true, some "k", true, true⟩ none "bad json"
    (by decide)

/-- C7: is_loopback_or_private holds on the three local example URLs, fails
on the public example URL, holds whenever the URL yields no host (parse
failure or empty host), and fails for every URL whose host is a nonempty
non-IP hostname other than localhost/ip6-localhost. -/
theorem is_loopback_or_private_spec :
    is_loopback_or_private "http://127.0.0.1:8080/x".data = true ∧
    is_loopback_or_private "http://localhost/x".data = true ∧
    is_loopback_or_private "http://10.0.0.5/x".data = true ∧
    is_loopback_or_private "https://api.example.com/x".data = false ∧
    (∀ url : List Char, hostOf url = [] → is_loopback_or_private url = true) ∧
    (∀ url : List Char, (hostOf url).all isHostnameChar = true → hostOf url ≠ [] →
      hostOf url ≠ "localhost".data → hostOf url ≠ "ip6-localhost".data →
      parseIPv4 (hostOf url) = none → is_loopback_or_private url = false) := by
  refine ⟨by decide, by decide, by decide, by decide, ?_, ?_⟩
  · intro url h
    simp [is_loopback_or_private, h]
  · intro url hall hne hl hip hp
    simp [is_loopback_or_private, hne, hl, hip, hp]

/-- C7 (witness): a scheme-less string has an empty host and classifies as
local; the public example hostname is not an IP and classifies as public. -/
theorem is_loopback_witness :
    is_loopback_or_private "nota url".data = true ∧
    is_loopback_or_private "https://api.example.com/x".data = false := by
  constructor
  · exact is_loopback_or_private_spec.2.2.2.2.1 "nota url".data (by decide)
  · exact is_loopback_or_private_spec.2.2.2.2.2 "https://api.example.com/x".data
      (by decide) (by decide) (by decide) (by decide) (by decide)

/-- C8: for every non-blank base URL whose processed value lacks a scheme,
normalize_base_url prepends "http://" exactly when the value is
localhost/127.0.0.1/0.0.0.0-prefixed and "https://" otherwise; in
particular "localhost:9000" and "api.example.com" normalize as claimed. -/
theorem normalize_scheme_choice (value : List Char)
    (h1 : stripWS value ≠ []) (h2 : hasScheme (processedValue value) = false) :
    normalize_base_url value =
      some ((if isLocalHostLike (processedValue value) then "http://".data
             else "https://".data) ++ processedValue value) ∧
    normalize_base_url "localhost:9000".data = some "http://localhost:9000".data ∧
    normalize_base_url "api.example.com".data = some "https://api.example.com".data := by
  refine ⟨?_, by decide, by decide⟩
  by_cases h3 : isLocalHostLike (processedValue value) <;>
    simp [normalize_base_url, h1, h2, h3]

/-- C8 (witness): the scheme-choice law applied at "localhost:9000". -/
theorem normalize_scheme_witness :
    normalize_base_url "localhost:9000".data =
      some ((if isLocalHostLike (processedValue "localhost:9000".data) then "http://".data
             else "https://".data) ++ processedValue "localhost:9000".data) :=
  (normalize_scheme_choice "localhost:9000".data (by decide) (by decide)).1

/-- C9 (code bug): normalize_base_url is not idempotent, contradicting its
own docstring ("no trailing slash"): the quoted input "example.com/" (a
tolerated quoted .env entry) normalizes to https://example.com/ because
quote stripping happens after slash stripping, and normalizing that output
again strips the slash, returning a different URL. -/
theorem normalize_not_idempotent :
    normalize_base_url ('"' :: ("example.com/".data ++ ['"'])) =
      some "https://example.com/".data ∧
    normalize_base_url "https://example.com/".data = some "https://example.com".data ∧
    ("https://example.com".data : List Char) ≠ "https://example.com/".data := by decide

/-- C10: every limit/offset pair actually forwarded to the persistence API
by fetch_interactions is clamped: the limit into [0, 1000] (values above
1000 reduced to 1000, negative values to 0) and the offset to be
non-negative, while in-range values pass through unchanged. -/
theorem fetch_interactions_clamp (configured : Bool) (limit offset : Int)
    (p : FetchParams) (h : fetch_interactions configured limit offset = some p) :
    0 ≤ p.limit ∧ p.limit ≤ 1000 ∧ 0 ≤ p.offset ∧
    (1000 < limit → p.limit = 1000) ∧ (limit < 0 → p.limit = 0) ∧
    (offset < 0 → p.offset = 0) ∧
    (0 ≤ limit → limit ≤ 1000 → p.limit = limit) ∧
    (0 ≤ offset → p.offset = offset) := by
  cases configured with
  | false => simp [fetch_interactions] at h
  | true =>
    simp only [fetch_interactions, Bool.not_true, Bool.false_eq_true, if_false,
      Option.some_inj] at h
    subst h
    refine ⟨?_, ?_, ?_, ?_, ?_, ?_, ?_, ?_⟩ <;> simp <;> omega

/-- C10 (witness): the clamp law applied at limit 2000 and offset -5, which
are forwarded as 1000 and 0. -/
theorem fetch_interactions_clamp_witness :
    fetch_interactions true 2000 (-5) = some ⟨1000, 0⟩ ∧
    (0 ≤ (⟨1000, 0⟩ : FetchParams).limit ∧ (⟨1000, 0⟩ : FetchParams).limit ≤ 1000 ∧
      0 ≤ (⟨1000, 0⟩ : FetchParams).offset ∧
      ((1000 : Int) < 2000 → (⟨1000, 0⟩ : FetchParams).limit = 1000) ∧
      ((2000 : Int) < 0 → (⟨1000, 0⟩ : FetchParams).limit = 0) ∧
      ((-5 : Int) < 0 → (⟨1000, 0⟩ : FetchParams).offset = 0) ∧
      ((0 : Int) ≤ 2000 → (2000 : Int) ≤ 1000 → (⟨1000, 0⟩ : FetchParams).limit = 2000) ∧
      ((0 : Int) ≤ -5 → (⟨1000, 0⟩ : FetchParams).offset = -5)) :=
  ⟨by decide, fetch_interactions_clamp true 2000 (-5) ⟨1000, 0⟩ (by decide)⟩

/-- Bounds on one logging round: at most one log event per configured
attempt and no completion events at all. -/
theorem logLoop_bounds (o : Oracles) :
    ∀ (atts : List Nat) (i : Nat) (d : ℚ),
      logCount (logLoop o atts i d).2.1 ≤ atts.length ∧
      compCount (logLoop o atts i d).2.1 = 0 := by
  intro atts
  induction atts with
  | nil => intro i d; simp [logLoop, logCount, compCount]
  | cons a rest ih =>
    intro i d
    cases hlg : o.log i with
    | ok u =>
      simp [logLoop, hlg, logCount, compCount, isLogEv, isCompEv, List.countP_cons]
    | error e =>
      by_cases ha : a < 2
      · rcases hl : logLoop o rest (i + 1) (d * 2) with ⟨r, evs, j⟩
        have := ih (i + 1) (d * 2)
        rw [hl] at this
        simp only [logLoop, hlg, ha, if_true, hl] at *
        simp [logCount, compCount, isLogEv, isCompEv, List.countP_cons] at this ⊢
        exact this
      · simp [logLoop, hlg, ha, logCount, compCount, isLogEv, isCompEv, List.countP_cons]

/-- Counting lemma: a completion event adds one to compCount. -/
theorem compCount_comp_cons (k : Nat) (b : Bool) (t : List Ev) :
    compCount (Ev.comp k b :: t) = compCount t + 1 := by
  simp [compCount, List.countP_cons, isCompEv]

/-- Counting lemma: a log event leaves compCount unchanged. -/
theorem compCount_log_cons (k : Nat) (b : Bool) (t : List Ev) :
    compCount (Ev.log k b :: t) = compCount t := by
  simp [compCount, List.countP_cons, isCompEv]

/-- Counting lemma: a sleep event leaves compCount unchanged. -/
theorem compCount_sleep_cons (d : ℚ) (t : List Ev) :
    compCount (Ev.sleep d :: t) = compCount t := by
  simp [compCount, List.countP_cons, isCompEv]

/-- Counting lemma: compCount distributes over append. -/
theorem compCount_append (s t : List Ev) :
    compCount (s ++ t) = compCount s + compCount t := by
  simp [compCount, List.countP_append]

/-- Counting lemma: a completion event leaves logCount unchanged. -/
theorem logCount_comp_cons (k : Nat) (b : Bool) (t : List Ev) :
    logCount (Ev.comp k b :: t) = logCount t := by
  simp [logCount, List.countP_cons, isLogEv]

/-- Counting lemma: a log event adds one to logCount. -/
theorem logCount_log_cons (k : Nat) (b : Bool) (t : List Ev) :
    logCount (Ev.log k b :: t) = logCount t + 1 := by
  simp [logCount, List.countP_cons, isLogEv]

/-- Counting lemma: a sleep event leaves logCount unchanged. -/
theorem logCount_sleep_cons (d : ℚ) (t : List Ev) :
    logCount (Ev.sleep d :: t) = logCount t := by
  simp [logCount, List.countP_cons, isLogEv]

/-- Counting lemma: logCount distributes over append. -/
theorem logCount_append (s t : List Ev) :
    logCount (s ++ t) = logCount s + logCount t := by
  simp [logCount, List.countP_append]

/-- Bounds on the outer retry loop: at most one completion event per
remaining attempt, at most three log events per remaining attempt, and no
log event before the first successful completion event. -/
theorem mainLoop_bounds (o : Oracles) :
    ∀ (atts : List Nat) (ci li : Nat) (d : ℚ),
      compCount (mainLoop o atts ci li d).2 ≤ atts.length ∧
      logCount (mainLoop o atts ci li d).2 ≤ 3 * atts.length ∧
      noLogBeforeCompSuccess (mainLoop o atts ci li d).2 = true := by
  intro atts
  induction atts with
  | nil => intro ci li d; simp [mainLoop, compCount, logCount, noLogBeforeCompSuccess]
  | cons a rest ih =>
    intro ci li d
    cases hc : o.comp ci with
    | ok content =>
      rcases hl : logLoop o [0, 1, 2] li (1 / 2) with ⟨lr, levs, li2⟩
      have hlev := logLoop_bounds o [0, 1, 2] li (1 / 2)
      rw [hl] at hlev
      dsimp only at hlev
      simp only [List.length_cons, List.length_nil] at hlev
      cases lr with
      | ok u =>
        simp only [mainLoop, hc, hl]
        refine ⟨?_, ?_, ?_⟩
        · rw [compCount_comp_cons]
          have h2 := hlev.2
          simp only [List.length_cons]
          omega
        · rw [logCount_comp_cons]
          have h1 := hlev.1
          simp only [List.length_cons]
          omega
        · simp [noLogBeforeCompSuccess]
      | error e =>
        by_cases ha : (a == 2) = true
        · simp only [mainLoop, hc, hl, ha, if_true]
          refine ⟨?_, ?_, ?_⟩
          · rw [compCount_comp_cons]
            have h2 := hlev.2
            simp only [List.length_cons]
            omega
          · rw [logCount_comp_cons]
            have h1 := hlev.1
            simp only [List.length_cons]
            omega
          · simp [noLogBeforeCompSuccess]
        · rcases hm : mainLoop o rest (ci + 1) li2 (d * 2) with ⟨r, evs⟩
          have ihm := ih (ci + 1) li2 (d * 2)
          rw [hm] at ihm
          dsimp only at ihm
          simp only [mainLoop, hc, hl, ha, Bool.false_eq_true, if_false, hm]
          refine ⟨?_, ?_, ?_⟩
          · rw [compCount_append, compCount_comp_cons, compCount_sleep_cons]
            have h2 := hlev.2
            have h3 := ihm.1
            simp only [List.length_cons]
            omega
          · rw [logCount_append, logCount_comp_cons, logCount_sleep_cons]
            have h1 := hlev.1
            have h3 := ihm.2.1
            simp only [List.length_cons]
            omega
          · simp [noLogBeforeCompSuccess, List.cons_append]
    | error e =>
      by_cases ha : (a == 2) = true
      · simp only [mainLoop, hc, ha, if_true]
        refine ⟨?_, ?_, ?_⟩
        · rw [compCount_comp_cons]
          simp [compCount]
        · simp [logCount, List.countP_cons, isLogEv]
        · simp [noLogBeforeCompSuccess]
      · rcases hm : mainLoop o rest (ci + 1) li (d * 2) with ⟨r, evs⟩
        have ihm := ih (ci + 1) li (d * 2)
        rw [hm] at ihm
        dsimp only at ihm
        simp only [mainLoop, hc, ha, Bool.false_eq_true, if_false, hm]
        refine ⟨?_, ?_, ?_⟩
        · rw [compCount_comp_cons, compCount_sleep_cons]
          have h3 := ihm.1
          simp only [List.length_cons]
          omega
        · rw [logCount_comp_cons, logCount_sleep_cons]
          have h3 := ihm.2.1
          simp only [List.length_cons]
          omega
        · simp [noLogBeforeCompSuccess, ihm.2.2]

/-- Sleep pattern of one logging round started with delay 1/2: no sleep, a
single 0.5 sleep, or the sleeps 0.5 and 1 (backoff doubling, never a third
sleep because the final attempt raises instead of sleeping). -/
theorem logLoop_sleeps (o : Oracles) (i : Nat) :
    sleepsOf (logLoop o [0, 1, 2] i (1 / 2)).2.1 = [] ∨
    sleepsOf (logLoop o [0, 1, 2] i (1 / 2)).2.1 = [1 / 2] ∨
    sleepsOf (logLoop o [0, 1, 2] i (1 / 2)).2.1 = [1 / 2, 1] := by
  cases h0 : o.log i with
  | ok u => simp [logLoop, h0, sleepsOf]
  | error e0 =>
    cases h1 : o.log (i + 1) with
    | ok u => simp [logLoop, h0, h1, sleepsOf]
    | error e1 =>
      cases h2 : o.log (i + 1 + 1) with
      | ok u =>
        right; right
        simp [logLoop, h0, h1, h2, sleepsOf]
      | error e2 =>
        right; right
        simp [logLoop, h0, h1, h2, sleepsOf]

/-- C1 (amended): within one job the log step runs only after a successful
completion call; one logging round makes at most 3 attempts with sleeps 0.5
then 1.0 between them; but exhaustion of a logging round raises back into
the outer retry loop, re-running the completion call on non-final attempts,
so a job performs at most 3 completion calls and at most 9 log attempts
(for both the transcript and the icebreaker processor). -/
theorem process_retry_structure (o : Oracles) :
    compCount (process_transcript o).2 ≤ 3 ∧
    logCount (process_transcript o).2 ≤ 9 ∧
    noLogBeforeCompSuccess (process_transcript o).2 = true ∧
    compCount (process_icebreaker o).2 ≤ 3 ∧
    logCount (process_icebreaker o).2 ≤ 9 ∧
    noLogBeforeCompSuccess (process_icebreaker o).2 = true ∧
    (∀ i, logCount (logLoop o [0, 1, 2] i (1 / 2)).2.1 ≤ 3) ∧
    (∀ i, sleepsOf (logLoop o [0, 1, 2] i (1 / 2)).2.1 = [] ∨
          sleepsOf (logLoop o [0, 1, 2] i (1 / 2)).2.1 = [1 / 2] ∨
          sleepsOf (logLoop o [0, 1, 2] i (1 / 2)).2.1 = [1 / 2, 1]) := by
  have hm := mainLoop_bounds o [0, 1, 2] 0 0 1
  refine ⟨?_, ?_, hm.2.2, ?_, ?_, hm.2.2, ?_, fun i => logLoop_sleeps o i⟩
  · exact hm.1
  · exact le_trans hm.2.1 (by norm_num)
  · exact hm.1
  · exact le_trans hm.2.1 (by norm_num)
  · intro i
    exact le_trans (logLoop_bounds o [0, 1, 2] i (1 / 2)).1 (by norm_num)

/-- C1 (counterexample): with a completion oracle that always succeeds and a
log oracle that always fails, the job re-runs the completion call after each
exhausted logging round — 3 completion calls and 9 log attempts in one job —
refuting "each stage at most once", "a persistence failure never causes the
completion call to be re-executed" and "log retried at most 3 times in
total". -/
theorem log_failure_reexecutes_completion :
    compCount (process_transcript
      ⟨fun _ => Except.ok "text", fun _ => Except.error "db down"⟩).2 = 3 ∧
    logCount (process_transcript
      ⟨fun _ => Except.ok "text", fun _ => Except.error "db down"⟩).2 = 9 ∧
    ¬ compCount (process_transcript
      ⟨fun _ => Except.ok "text", fun _ => Except.error "db down"⟩).2 ≤ 1 := by
  refine ⟨by decide, by decide, by decide⟩

/-- C2: starting from delay 1 with doubling backoff, a completion call that
fails twice and then succeeds (with logging succeeding) is attempted exactly
3 times, the third response is returned and the total wait is at least
1 + 2 = 3 time units; a completion call that fails on all three attempts is
attempted exactly 3 times and the error surfaced to the caller is the last
attempt's error. -/
theorem process_transcript_retry_law (o : Oracles) (e0 e1 e2 c : String)
    (hlog : ∀ i, o.log i = Except.ok ())
    (h0 : o.comp 0 = Except.error e0) (h1 : o.comp 1 = Except.error e1) :
    (o.comp 2 = Except.ok c →
      (process_transcript o).1 = Except.ok c ∧
      compCount (process_transcript o).2 = 3 ∧
      3 ≤ sleepTotal (process_transcript o).2) ∧
    (o.comp 2 = Except.error e2 →
      (process_transcript o).1 = Except.error e2 ∧
      compCount (process_transcript o).2 = 3) := by
  constructor
  · intro h2
    simp [process_transcript, mainLoop, logLoop, h0, h1, h2, hlog 0, compCount,
      sleepTotal, isCompEv, List.countP_cons]
    norm_num
  · intro h2
    simp [process_transcript, mainLoop, h0, h1, h2, compCount, isCompEv,
      List.countP_cons]

/-- C2 (witness): the retry law applied to a concrete oracle failing twice
then succeeding, and to a concrete oracle failing on all three attempts with
distinct errors, whose surfaced error is the third one. -/
theorem process_transcript_retry_law_witness :
    ((process_transcript ⟨fun i => match i with
        | 0 => Except.error "e0" | 1 => Except.error "e1" | _ => Except.ok "done",
      fun _ => Except.ok ()⟩).1 = Except.ok "done" ∧
     compCount (process_transcript ⟨fun i => match i with
        | 0 => Except.error "e0" | 1 => Except.error "e1" | _ => Except.ok "done",
      fun _ => Except.ok ()⟩).2 = 3 ∧
     3 ≤ sleepTotal (process_transcript ⟨fun i => match i with
        | 0 => Except.error "e0" | 1 => Except.error "e1" | _ => Except.ok "done",
      fun _ => Except.ok ()⟩).2) ∧
    ((process_transcript ⟨fun i => match i with
        | 0 => Except.error "err0" | 1 => Except.error "err1" | _ => Except.error "err2",
      fun _ => Except.ok ()⟩).1 = Except.error "err2" ∧
     compCount (process_transcript ⟨fun i => match i with
        | 0 => Except.error "err0" | 1 => Except.error "err1" | _ => Except.error "err2",
      fun _ => Except.ok ()⟩).2 = 3) := by
  constructor
  · exact (process_transcript_retry_law
      ⟨fun i => match i with
        | 0 => Except.error "e0" | 1 => Except.error "e1" | _ => Except.ok "done",
       fun _ => Except.ok ()⟩
      "e0" "e1" "x" "done" (fun i => rfl) rfl rfl).1 rfl
  · exact (process_transcript_retry_law
      ⟨fun i => match i with
        | 0 => Except.error "err0" | 1 => Except.error "err1" | _ => Except.error "err2",
       fun _ => Except.ok ()⟩
      "err0" "err1" "err2" "c" (fun i => rfl) rfl rfl).2 rfl
